import Mathlib

/-!
# Verification of the abydos phones module

A shallow embedding of `abydos/phones.py`: the static phonetic feature
table `PHONETIC_FEATURES`, the feature mask table `FEATURE_MASK`, the
greedy tokenizer `ipa_to_features`, and the decoder `has_feature`.

Modelling conventions:
* Python dicts of compile-time constants become association lists
  (`List (String × _)`); key lookup is `List.find?` on the key component
  (all keys are distinct, so this matches dict semantics).
* Python ints are `Int` where negative values occur (vectors mixed with
  the `-1` sentinel), `Nat` for the masks (always nonnegative).
* `ipa_to_features` first lowercases and NFC-normalizes its input via
  the Python standard library; the embedding takes the already
  normalized codepoint sequence (a `String`, viewed as its list of
  Unicode codepoints).  All table keys and the concrete inputs used
  below are fixed points of that normalization.
* Python slicing clamps at the end of the string, so `ipa[pos:pos+3]`
  is `(rest.take 3)` on the remaining codepoints; advancing `pos` by
  `k` is `rest.drop k` (also clamped, and the loop condition
  `pos < len(ipa)` makes any overshoot terminate the loop exactly like
  the empty remainder does).
* `float('NaN')` appended by the decoder for sentinel entries becomes
  `Option.none`; ordinary decoded values `1`, `0`, `-1` become
  `some 1`, `some 0`, `some (-1)`.
* A raised `AttributeError` (unknown feature name) is modelled by
  `has_feature` returning `Option.none` for the whole call, before any
  per-vector output exists.
-/

/-- The segment table of `abydos/phones.py` (`PHONETIC_FEATURES`,
lines 29-100): each IPA segment spelling maps to its bit-packed feature
vector, transcribed literally from the source. -/
def PHONETIC_FEATURES : List (String × Int) :=
  [("t", 0b0110101000010110100000000010001010101010101010),
   ("d", 0b0110101000010110100000000010000110101010101010),
   ("s", 0b0110101000010110100000000010001010100101101010),
   ("z", 0b0110101000010110100000000010000110100101101010),
   ("ɬ", 0b0110101000010110100000000010001001100110011010),
   ("ɮ", 0b0110101000010110100000000010000110100110011010),
   ("θ", 0b0110101000010110100000000010001010100110101010),
   ("ð", 0b0110101000010110100000000010000110100110101010),
   ("ʃ", 0b0110101000011001100000000010001010100101101010),
   ("ʒ", 0b0110101000011001100000000010000110100101101010),
   ("c", 0b0110101000011001010110101010001010101010101010),
   ("ɟ", 0b0110101000011001010110101010000110101010101010),
   ("ç", 0b0110101000011001010110101010001010100110101010),
   ("ʝ", 0b0110101000011001010110101010000110100110101010),
   ("p", 0b0110100110100000100000000010001010101010101010),
   ("b", 0b0110100110100000100000000010000110101010101010),
   ("f", 0b0110100110100000100000000010001010100110101010),
   ("v", 0b0110100110100000100000000010000110100110101010),
   ("ɸ", 0b0110100110100000100000000010001010100110101010),
   ("β", 0b0110100110100000100000000010000110100110101010),
   ("k", 0b0110101000100000010110011010001010101010101010),
   ("g", 0b0110101000100000010110011010000110101010101010),
   ("x", 0b0110101000100000010110011010001010100110101010),
   ("ɣ", 0b0110101000100000010110011010000110100110101010),
   ("q", 0b0110101000100000011010011010001010101010101010),
   ("ɢ", 0b0110101000100000011010011010000110101010101010),
   ("χ", 0b0110101000100000011010011010001010100110101010),
   ("ʁ", 0b0110101000100000011010011010000110100110101010),
   ("ħ", 0b0110101000100000100000000001101010100110101010),
   ("ʕ", 0b0110101000100000100000000001101010100110101010),
   ("h", 0b1010101000100000100000000010001001100110101010),
   ("ɦ", 0b1010101000100000100000000010000101100110101010),
   ("ʔ", 0b1010101000100000100000000010001010011010101010),
   ("tʃ", 0b0110101000011001010110101010001010101001100110),
   ("dʒ", 0b0110101000011001010110101010000110101001100110),
   ("ts", 0b0110101000010110100000000010001010101001100110),
   ("dz", 0b0110101000010110100000000010000110101001100110),
   ("kx", 0b0110101000100000010110011010001010101010100110),
   ("pf", 0b0110100110100000100000000010001010101001100110),
   ("m", 0b0101100110100000100000000010000110101010101001),
   ("n", 0b0101101000010110100000000010000110101010101001),
   ("ŋ", 0b0101101000100000010110011010000110101010101001),
   ("ɳ", 0b0101101000011010011010101010000110101010101001),
   ("ɲ", 0b0101101000100000010110101010000110101010101001),
   ("ɴ", 0b0101101000100000011010011010000110101010101001),
   ("l", 0b0101101000010110100000000010000110100110011010),
   ("ʎ", 0b0101101000100000010110101010000110100110011010),
   ("r", 0b0101101000010110100000000010000110100110101010),
   ("ɹ", 0b0101101000010110100000000010000110100110101010),
   ("ʀ", 0b0101101000100000011010011010000110100110101010),
   ("j", 0b1001100110100000010110101010000110100110101010),
   ("w", 0b1001100101100000010110011010000110100110101010),
   ("ɥ", 0b1001100101100000010110101010000110100110101010),
   ("ɰ", 0b1001100110100000010110011010000110100110101010),
   ("i", 0b1001010110100000010110100101010110100110101010),
   ("ɪ", 0b1001010110100000010110101001100110100110101010),
   ("u", 0b1001010101100000010110010101010110100110101010),
   ("ʊ", 0b1001010101100000010110011001100110100110101010),
   ("e", 0b1001010110100000011010100101010110100110101010),
   ("ɛ", 0b1001010110100000011010101001100110100110101010),
   ("o", 0b1001010101100000011010010101010110100110101010),
   ("ɔ", 0b1001010101100000011010011001100110100110101010),
   ("a", 0b1001010110100000011001101001100110100110101010),
   ("æ", 0b1001010110100000011001100101100110100110101010),
   ("y", 0b1001010101100000010110100101010110100110101010),
   ("ʏ", 0b1001010101100000010110101001100110100110101010),
   ("ø", 0b1001010101100000011010100101010110100110101010),
   ("œ", 0b1001010110100000011010101001100110100110101010),
   ("ə", 0b1001010101100000011010011001100110100110101010),
   ("ɯ", 0b1001010101100000010110010101100110100110101010),
   ("kw", 0b0110100101100000010110011010001010101010101010),
   ("gw", 0b0110100101100000010110011010000110101010101010)]

/-- The feature mask table of `abydos/phones.py` (`FEATURE_MASK`,
lines 102-127), transcribed literally from the source. -/
def FEATURE_MASK : List (String × Nat) :=
  [("consonantal", 0b1100000000000000000000000000000000000000000000),
   ("sonorant", 0b0011000000000000000000000000000000000000000000),
   ("syllabic", 0b0000110000000000000000000000000000000000000000),
   ("labial", 0b0000001100000000000000000000000000000000000000),
   ("round", 0b0000000011000000000000000000000000000000000000),
   ("coronal", 0b0000000000110000000000000000000000000000000000),
   ("anterior", 0b0000000000001100000000000000000000000000000000),
   ("distributed", 0b0000000000000011000000000000000000000000000000),
   ("dorsal", 0b0000000000000000110000000000000000000000000000),
   ("high", 0b0000000000000000001100000000000000000000000000),
   ("low", 0b0000000000000000000011000000000000000000000000),
   ("back", 0b0000000000000000000000110000000000000000000000),
   ("tense", 0b0000000000000000000000001100000000000000000000),
   ("pharyngeal", 0b0000000000000000000000000011000000000000000000),
   ("ATR", 0b0000000000000000000000000000110000000000000000),
   ("voice", 0b0000000000000000000000000000001100000000000000),
   ("spread_glottis", 0b0000000000000000000000000000000011000000000000),
   ("constricted_glottis", 0b0000000000000000000000000000000000110000000000),
   ("continuant", 0b0000000000000000000000000000000000001100000000),
   ("strident", 0b0000000000000000000000000000000000000011000000),
   ("lateral", 0b0000000000000000000000000000000000000000110000),
   ("delayed_release", 0b0000000000000000000000000000000000000000001100),
   ("nasal", 0b0000000000000000000000000000000000000000000011)]

/-- Dict lookup `PHONETIC_FEATURES[s]` / membership `s in PHONETIC_FEATURES`,
on a slice given as a list of codepoints. -/
def lookupSeg (s : List Char) : Option Int :=
  (PHONETIC_FEATURES.find? (fun p => p.1.data == s)).map Prod.snd

/-- Dict lookup `FEATURE_MASK[feature]` / membership test. -/
def lookupMask (feature : String) : Option Nat :=
  (FEATURE_MASK.find? (fun p => p.1 == feature)).map Prod.snd

/-- The names of the known features, in table order. -/
def featureNames : List String := FEATURE_MASK.map Prod.fst

/-- One iteration body of the `while` loop of `ipa_to_features`
(lines 141-153), fuelled so that the recursion is structural.  Each
emitted token is paired with the slice of input codepoints it matched:
the value appended by the source together with the substring
(`ipa[pos:pos+3]`, `ipa[pos:pos+2]` or `ipa[pos]`) that was looked up.
The guards `pos+2 <= len(ipa)` and `pos+1 <= len(ipa)` become length
tests on the remainder, and `pos += k` becomes `List.drop k`, which
clamps exactly as the Python loop condition does.  The fuel is always
called with at least the length of the list, so the `0` case with a
nonempty list is never reached. -/
def ipaLoopF : Nat → List Char → List (List Char × Int)
  | _, [] => []
  | 0, _ :: _ => []
  | fuel + 1, c :: rest =>
    if 2 ≤ (c :: rest).length ∧ (lookupSeg ((c :: rest).take 3)).isSome then
      ((c :: rest).take 3, (lookupSeg ((c :: rest).take 3)).getD (-1)) ::
        ipaLoopF fuel ((c :: rest).drop 3)
    else if 1 ≤ (c :: rest).length ∧ (lookupSeg ((c :: rest).take 2)).isSome then
      ((c :: rest).take 2, (lookupSeg ((c :: rest).take 2)).getD (-1)) ::
        ipaLoopF fuel ((c :: rest).drop 2)
    else if (lookupSeg [c]).isSome then
      ([c], (lookupSeg [c]).getD (-1)) :: ipaLoopF fuel ((c :: rest).drop 1)
    else
      ([c], -1) :: ipaLoopF fuel ((c :: rest).drop 1)

/-- The tokenizer loop of `ipa_to_features` on a normalized codepoint
sequence, instrumented with the matched slices. -/
def ipaLoop (l : List Char) : List (List Char × Int) :=
  ipaLoopF l.length l

/-- `ipa_to_features(ipa)` (lines 130-155): the list of feature vectors
(or `-1` sentinels) for a string.  The argument is the codepoint
sequence after the source's lowercasing and NFC normalization. -/
def ipa_to_features (ipa : String) : List Int :=
  (ipaLoop ipa.data).map Prod.snd

/-- The per-element body of the `for char in vector` loop of
`has_feature` (lines 185-197): decode one entry against one mask.
`float('NaN')` is `none`; `masked & pos_mask` is truthy iff nonzero. -/
def decodeOne (mask : Nat) (binary : Bool) (ch : Int) : Option Int :=
  if ch < 0 then
    none
  else
    let masked := ch.toNat &&& mask
    if masked = 0 then some 0
    else if masked &&& (mask >>> 1) ≠ 0 then some 1
    else if binary then some 0
    else some (-1)

/-- `has_feature(vector, feature, binary)` (lines 157-199).  An unknown
feature name raises `AttributeError` before any per-vector output,
modelled as `none` for the whole call; otherwise the result is the list
of decoded values. -/
def has_feature (vector : List Int) (feature : String) (binary : Bool := false) :
    Option (List (Option Int)) :=
  match lookupMask feature with
  | none => none
  | some mask => some (vector.map (decodeOne mask binary))

/-- The union of all feature masks. -/
def maskUnion : Nat := (FEATURE_MASK.map Prod.snd).foldr (fun a b => a ||| b) 0

/-- Modelled from the spec: per-vector decoding in the spec's words
("mask the vector with the feature's FeatureMask; if the masked result
is 0, output 0; else test whether the masked bits match the mask's
positive half -- the lower bit of the field -- if so output +1, else
output −1, or 0 if binary_mode is true").  The mask's positive half is
`mask &&& (mask >>> 1)`, the lower bit of the 2-bit field; "the masked
bits include it" is the equality below.  This definition is the
refinement target compared against `decodeOne`, which is translated
from the code. -/
def claimDecode (mask : Nat) (binary : Bool) (ch : Int) : Option Int :=
  if ch < 0 then
    none
  else if ch.toNat &&& mask = 0 then some 0
  else if (ch.toNat &&& mask) &&& (mask &&& (mask >>> 1)) = mask &&& (mask >>> 1) then some 1
  else if binary then some 0
  else some (-1)

/-- A power of two is either wholly inside `n` or wholly outside:
`n &&& 2^k` is `2^k` or `0`. -/
theorem land_two_pow_cases (n k : Nat) : n &&& 2 ^ k = 2 ^ k ∨ n &&& 2 ^ k = 0 := by
  rcases h : n.testBit k with hf | ht
  · right
    rw [Nat.and_two_pow, h]
    simp
  · left
    rw [Nat.and_two_pow, h]
    simp

/-- When the mask's self-overlap `m &&& (m >>> 1)` is a single bit
`2^k`, the code's decode (`decodeOne`: test `masked & (mask >> 1)`
nonzero) agrees with the spec's decode (`claimDecode`: test that the
masked bits contain the mask's positive half). -/
theorem decode_eq_claim (m k : Nat) (hk : m &&& (m >>> 1) = 2 ^ k)
    (b : Bool) (ch : Int) : decodeOne m b ch = claimDecode m b ch := by
  unfold decodeOne claimDecode
  by_cases hneg : ch < 0
  · simp [hneg]
  simp only [if_neg hneg]
  by_cases h0 : ch.toNat &&& m = 0
  · simp [h0]
  simp only [if_neg h0]
  have hm2 : m &&& 2 ^ k = 2 ^ k := by
    conv_lhs => rw [← hk, ← Nat.land_assoc, Nat.and_self]
    exact hk
  have e1 : (ch.toNat &&& m) &&& (m >>> 1) = ch.toNat &&& 2 ^ k := by
    rw [Nat.land_assoc, hk]
  have e2 : (ch.toNat &&& m) &&& (m &&& (m >>> 1)) = ch.toNat &&& 2 ^ k := by
    rw [hk, Nat.land_assoc, hm2]
  rw [e1, e2, hk]
  rcases land_two_pow_cases ch.toNat k with h | h
  · rw [h]
    simp
  · rw [h]
    have hne : (0 : Nat) ≠ 2 ^ k := (Nat.two_pow_pos k).ne
    simp [hne, (Nat.two_pow_pos k).ne']

/-- Every entry of `FEATURE_MASK` is found by name lookup, and its
mask's positive half is a single bit `2^k` with `k < 46`. -/
theorem maskAux : ∀ nm ∈ FEATURE_MASK, lookupMask nm.1 = some nm.2 ∧
    ∃ k ∈ List.range 46, nm.2 &&& (nm.2 >>> 1) = 2 ^ k := by decide

/-- Name lookup in `FEATURE_MASK` fails exactly for the strings that
are not feature names. -/
theorem lookupMask_none_iff (f : String) : lookupMask f = none ↔ f ∉ featureNames := by
  unfold lookupMask featureNames
  rw [Option.map_eq_none', List.find?_eq_none]
  constructor
  · intro h hmem
    obtain ⟨p, hp, hpf⟩ := List.mem_map.mp hmem
    exact absurd (by simp [hpf]) (h p hp)
  · intro h p hp
    simp only [beq_iff_eq, ne_eq]
    intro hpf
    exact h (List.mem_map.mpr ⟨p, hp, hpf⟩)

/-- Concatenating the matched slices of the tokenizer loop recovers the
input: every codepoint is consumed exactly once, in order. -/
theorem ipaLoopF_flatten (f : Nat) : ∀ l : List Char, l.length ≤ f →
    ((ipaLoopF f l).map Prod.fst).flatten = l := by
  induction f with
  | zero =>
    intro l hl
    cases l with
    | nil => rfl
    | cons c rest => simp at hl
  | succ f ih =>
    intro l hl
    cases l with
    | nil => rfl
    | cons c rest =>
      have hr : rest.length + 1 ≤ f + 1 := by simpa using hl
      simp only [ipaLoopF]
      split
      · simp only [List.map_cons, List.flatten_cons]
        rw [ih _ (by simp; omega)]
        exact List.take_append_drop 3 (c :: rest)
      · split
        · simp only [List.map_cons, List.flatten_cons]
          rw [ih _ (by simp; omega)]
          exact List.take_append_drop 2 (c :: rest)
        · split
          · simp only [List.map_cons, List.flatten_cons]
            rw [ih _ (by simp; omega)]
            simp
          · simp only [List.map_cons, List.flatten_cons]
            rw [ih _ (by simp; omega)]
            simp

/-- Each matched slice of the tokenizer loop has 1, 2 or 3 codepoints. -/
theorem ipaLoopF_lens (f : Nat) : ∀ l : List Char, ∀ t ∈ ipaLoopF f l,
    t.1.length = 1 ∨ t.1.length = 2 ∨ t.1.length = 3 := by
  induction f with
  | zero =>
    intro l t ht
    cases l with
    | nil => simp [ipaLoopF] at ht
    | cons c rest => simp [ipaLoopF] at ht
  | succ f ih =>
    intro l t ht
    cases l with
    | nil => simp [ipaLoopF] at ht
    | cons c rest =>
      simp only [ipaLoopF] at ht
      split at ht <;> [skip; split at ht] <;> [skip; skip; split at ht] <;>
        rcases List.mem_cons.mp ht with h | h
      · rw [h]
        simp only [List.length_take, List.length_cons]
        omega
      · exact ih _ t h
      · rw [h]
        simp only [List.length_take, List.length_cons]
        omega
      · exact ih _ t h
      · rw [h]
        simp
      · exact ih _ t h
      · rw [h]
        simp
      · exact ih _ t h

/-- The tokenizer loop does not depend on the fuel, as long as the fuel
is at least the number of remaining codepoints. -/
theorem ipaLoopF_congr : ∀ f1 f2 : Nat, ∀ l : List Char,
    l.length ≤ f1 → l.length ≤ f2 → ipaLoopF f1 l = ipaLoopF f2 l := by
  intro f1
  induction f1 with
  | zero =>
    intro f2 l h1 h2
    cases l with
    | nil => cases f2 <;> rfl
    | cons c rest => simp at h1
  | succ f ih =>
    intro f2 l h1 h2
    cases l with
    | nil => cases f2 <;> rfl
    | cons c rest =>
      cases f2 with
      | zero => simp at h2
      | succ f2 =>
        have hr1 : rest.length + 1 ≤ f + 1 := by simpa using h1
        have hr2 : rest.length + 1 ≤ f2 + 1 := by simpa using h2
        simp only [ipaLoopF]
        split
        · congr 1
          exact ih f2 _ (by simp; omega) (by simp; omega)
        · split
          · congr 1
            exact ih f2 _ (by simp; omega) (by simp; omega)
          · split
            · congr 1
              exact ih f2 _ (by simp; omega) (by simp; omega)
            · congr 1
              exact ih f2 _ (by simp; omega) (by simp; omega)

/-- Unfolding `ipaLoop` one step when the arbitrary-slice (`take 3`)
branch fires: the source's first `if` (lines 142-144). -/
theorem ipaLoop_step3 (l : List Char) (v : Int) (hlen : 2 ≤ l.length)
    (h : lookupSeg (l.take 3) = some v) :
    ipaLoop l = (l.take 3, v) :: ipaLoop (l.drop 3) := by
  cases l with
  | nil => simp at hlen
  | cons c rest =>
    show ipaLoopF (rest.length + 1) (c :: rest) = _
    simp only [ipaLoopF]
    rw [if_pos ⟨hlen, by rw [h]; rfl⟩, h]
    refine congrArg _ ?_
    exact ipaLoopF_congr rest.length ((c :: rest).drop 3).length _ (by simp) (le_refl _)

/-- Unfolding `ipaLoop` one step when the `take 2` branch fires: the
source's first `elif` (lines 145-147), reached only when the `take 3`
slice is not a key. -/
theorem ipaLoop_step2 (l : List Char) (v : Int) (hlen : 1 ≤ l.length)
    (h3 : lookupSeg (l.take 3) = none) (h : lookupSeg (l.take 2) = some v) :
    ipaLoop l = (l.take 2, v) :: ipaLoop (l.drop 2) := by
  cases l with
  | nil => simp at hlen
  | cons c rest =>
    show ipaLoopF (rest.length + 1) (c :: rest) = _
    simp only [ipaLoopF]
    rw [if_neg (by rw [h3]; simp), if_pos ⟨hlen, by rw [h]; rfl⟩, h]
    refine congrArg _ ?_
    exact ipaLoopF_congr rest.length ((c :: rest).drop 2).length _ (by simp) (le_refl _)

/-- Unfolding `ipaLoop` one step when only the single-codepoint branch
fires: the source's second `elif` (lines 148-150). -/
theorem ipaLoop_step1 (c : Char) (rest : List Char) (v : Int)
    (h3 : lookupSeg ((c :: rest).take 3) = none)
    (h2 : lookupSeg ((c :: rest).take 2) = none) (h : lookupSeg [c] = some v) :
    ipaLoop (c :: rest) = ([c], v) :: ipaLoop rest := by
  show ipaLoopF (rest.length + 1) (c :: rest) = _
  simp only [ipaLoopF]
  rw [if_neg (by rw [h3]; simp), if_neg (by rw [h2]; simp), if_pos (by rw [h]; rfl), h]
  rfl

/-- Unfolding `ipaLoop` one step when no slice at the current position
is a key: the source's `else` branch (lines 151-153) emits the `-1`
sentinel and advances one codepoint. -/
theorem ipaLoop_step0 (c : Char) (rest : List Char)
    (h3 : lookupSeg ((c :: rest).take 3) = none)
    (h2 : lookupSeg ((c :: rest).take 2) = none) (h1 : lookupSeg [c] = none) :
    ipaLoop (c :: rest) = ([c], -1) :: ipaLoop rest := by
  show ipaLoopF (rest.length + 1) (c :: rest) = _
  simp only [ipaLoopF]
  rw [if_neg (by rw [h3]; simp), if_neg (by rw [h2]; simp), if_neg (by rw [h1]; simp)]
  rfl

/-- Claim C1 counterexample: the feature table does not have 24 names,
and the union of the masks is not the full 48-bit space — the table has
23 names spanning 46 bits. -/
theorem claim1_cex : ¬(FEATURE_MASK.length = 24 ∧ maskUnion = 2 ^ 48 - 1) := by decide

/-- Claim C1 (amended): the static feature table defines exactly 23
feature names whose masks are pairwise disjoint 2-bit fields, the union
of all masks is the full 46-bit space, the fields are ordered from
most-significant to least-significant as consonantal, sonorant,
syllabic, labial, round, coronal, anterior, distributed, dorsal, high,
low, back, tense, pharyngeal, ATR, voice, spread_glottis,
constricted_glottis, continuant, strident, lateral, delayed_release,
nasal, and every stored vector's set bits are a subset of the union of
the masks. -/
theorem claim1_feature_table :
    featureNames = ["consonantal", "sonorant", "syllabic", "labial", "round", "coronal",
      "anterior", "distributed", "dorsal", "high", "low", "back", "tense", "pharyngeal",
      "ATR", "voice", "spread_glottis", "constricted_glottis", "continuant", "strident",
      "lateral", "delayed_release", "nasal"] ∧
    FEATURE_MASK.length = 23 ∧
    FEATURE_MASK.map Prod.snd = (List.range 23).map (fun i => 0b11 <<< (44 - 2 * i)) ∧
    List.Pairwise (fun a b => a.2 &&& b.2 = 0) FEATURE_MASK ∧
    maskUnion = 2 ^ 46 - 1 ∧
    ∀ kv ∈ PHONETIC_FEATURES, kv.2.toNat &&& maskUnion = kv.2.toNat := by decide

/-- Claim C1 witness: the vector of the segment "t" has no bits outside
the union of the masks. -/
theorem claim1_feature_table_w :
    (0b0110101000010110100000000010001010101010101010 : Int).toNat &&& maskUnion =
      (0b0110101000010110100000000010001010101010101010 : Int).toNat :=
  claim1_feature_table.2.2.2.2.2
    ("t", 0b0110101000010110100000000010001010101010101010) (by decide)

/-- Claim C2: on any (normalized) input codepoint sequence, the slices
matched by the emitted tokens of `ipa_to_features` concatenate back to
the input — so the consumed counts (each 1, 2 or 3) sum to the input
length, no codepoint is consumed twice or left unconsumed, and there is
one token per slice. -/
theorem claim2_total_coverage (l : List Char) :
    ((ipaLoop l).map (fun t => t.1.length)).sum = l.length ∧
    ((ipaLoop l).map Prod.fst).flatten = l ∧
    (∀ t ∈ ipaLoop l, t.1.length = 1 ∨ t.1.length = 2 ∨ t.1.length = 3) ∧
    (ipa_to_features (String.mk l)).length = (ipaLoop l).length := by
  have hflat := ipaLoopF_flatten l.length l (le_refl _)
  refine ⟨?_, hflat, ipaLoopF_lens l.length l, ?_⟩
  · have hlen := congrArg List.length hflat
    rw [List.length_flatten, List.map_map] at hlen
    exact hlen
  · show ((ipaLoop l).map Prod.snd).length = _
    rw [List.length_map]

/-- Claim C2 witness: in the tokenization of "pfa", the token for the
digraph "pf" consumed two codepoints. -/
theorem claim2_total_coverage_w :
    (['p', 'f'], (0b0110100110100000100000000010001010101001100110 : Int)).1.length = 1 ∨
    (['p', 'f'], (0b0110100110100000100000000010001010101001100110 : Int)).1.length = 2 ∨
    (['p', 'f'], (0b0110100110100000100000000010001010101001100110 : Int)).1.length = 3 :=
  (claim2_total_coverage ("pfa".data)).2.2.1
    (['p', 'f'], (0b0110100110100000100000000010001010101001100110 : Int)) (by decide)

/-- Claim C3: every key of the segment table tokenizes, alone, to the
one-element list holding exactly its stored vector. -/
theorem claim3_roundtrip : ∀ kv ∈ PHONETIC_FEATURES, ipa_to_features kv.1 = [kv.2] := by
  decide

/-- Claim C3 witness: the segment "t" is a key and tokenizes to its
stored vector alone. -/
theorem claim3_roundtrip_w :
    ipa_to_features "t" = [(0b0110101000010110100000000010001010101010101010 : Int)] :=
  claim3_roundtrip ("t", 0b0110101000010110100000000010001010101010101010) (by decide)

/-- Claim C4: the tokenizer is greedy longest-match — the 3-codepoint
slice is tried first, then the 2-codepoint slice, then the single
codepoint; in particular the registered digraphs "pf" and "ts", whose
individual codepoints are also keys, tokenize to a single vector equal
to the digraph's stored entry. -/
theorem claim4_greedy :
    (∀ (l : List Char) (v : Int), 2 ≤ l.length → lookupSeg (l.take 3) = some v →
      ipaLoop l = (l.take 3, v) :: ipaLoop (l.drop 3)) ∧
    (∀ (l : List Char) (v : Int), 1 ≤ l.length → lookupSeg (l.take 3) = none →
      lookupSeg (l.take 2) = some v → ipaLoop l = (l.take 2, v) :: ipaLoop (l.drop 2)) ∧
    (∀ (c : Char) (rest : List Char) (v : Int), lookupSeg ((c :: rest).take 3) = none →
      lookupSeg ((c :: rest).take 2) = none → lookupSeg [c] = some v →
      ipaLoop (c :: rest) = ([c], v) :: ipaLoop rest) ∧
    ipa_to_features "pf" = [0b0110100110100000100000000010001010101001100110] ∧
    ipa_to_features "ts" = [0b0110101000010110100000000010001010101001100110] ∧
    lookupSeg ['p'] ≠ none ∧ lookupSeg ['f'] ≠ none ∧
    lookupSeg ['t'] ≠ none ∧ lookupSeg ['s'] ≠ none :=
  ⟨ipaLoop_step3, ipaLoop_step2, ipaLoop_step1,
    by decide, by decide, by decide, by decide, by decide, by decide⟩

/-- Claim C4 witness: the first branch fires on "pf", the second on
"pfa", the third on "p0". -/
theorem claim4_greedy_w :
    (ipaLoop "pf".data = ("pf".data.take 3,
      (0b0110100110100000100000000010001010101001100110 : Int)) :: ipaLoop ("pf".data.drop 3)) ∧
    (ipaLoop "pfa".data = ("pfa".data.take 2,
      (0b0110100110100000100000000010001010101001100110 : Int)) :: ipaLoop ("pfa".data.drop 2)) ∧
    (ipaLoop "p0".data = (['p'],
      (0b0110100110100000100000000010001010101010101010 : Int)) :: ipaLoop ['0']) :=
  ⟨claim4_greedy.1 _ _ (by decide) (by decide),
   claim4_greedy.2.1 _ _ (by decide) (by decide) (by decide),
   claim4_greedy.2.2.1 'p' ['0'] _ (by decide) (by decide) (by decide)⟩

/-- Claim C5: for every feature name of the table and every nonnegative
vector, `has_feature` decodes as the spec states — mask the vector; 0
if the masked result is 0, +1 if the masked bits include the mask's
positive (lower) half, −1 otherwise, with −1 collapsed to 0 when
`binary` is true (`claimDecode` is that spec decoding verbatim). -/
theorem claim5_decode : ∀ nm ∈ FEATURE_MASK, ∀ (b : Bool) (ch : Int), 0 ≤ ch →
    has_feature [ch] nm.1 b = some [claimDecode nm.2 b ch] := by
  intro nm hmem b ch _
  obtain ⟨hlk, k, _, hk⟩ := maskAux nm hmem
  simp only [has_feature, hlk, List.map_cons, List.map_nil]
  rw [decode_eq_claim nm.2 k hk b ch]

/-- Claim C5 witness: the voice feature of the vector of "t" decodes by
the spec's rule. -/
theorem claim5_decode_w :
    ("voice", (0b0000000000000000000000000000001100000000000000 : Nat)) ∈ FEATURE_MASK ∧
    has_feature [(0b0110101000010110100000000010001010101010101010 : Int)] "voice" false =
      some [claimDecode 0b0000000000000000000000000000001100000000000000 false
        0b0110101000010110100000000010001010101010101010] :=
  ⟨by decide, claim5_decode
    ("voice", 0b0000000000000000000000000000001100000000000000) (by decide) false
    0b0110101000010110100000000010001010101010101010 (by decide)⟩

/-- Claim C6: an unknown feature name makes `has_feature` fail (the
modelled `AttributeError`) before any per-vector output, whatever the
vector list; every known feature name never fails and yields one output
per input vector. -/
theorem claim6_feature_name : ∀ (v : List Int) (f : String) (b : Bool),
    (f ∉ featureNames → has_feature v f b = none) ∧
    (f ∈ featureNames → ∃ r, has_feature v f b = some r ∧ r.length = v.length) := by
  intro v f b
  constructor
  · intro hf
    have hnone := (lookupMask_none_iff f).mpr hf
    simp [has_feature, hnone]
  · intro hf
    have hne : lookupMask f ≠ none := fun h => (lookupMask_none_iff f).mp h hf
    obtain ⟨m, hm⟩ := Option.ne_none_iff_exists.mp hne
    refine ⟨v.map (decodeOne m b), ?_, by simp⟩
    simp [has_feature, hm.symm]

/-- Claim C6 witness: "not_a_feature" is rejected for the vector [0],
while "voice" is accepted. -/
theorem claim6_feature_name_w :
    (has_feature [(0 : Int)] "not_a_feature" false = none) ∧
    (∃ r, has_feature [(0 : Int)] "voice" false = some r ∧ r.length = [(0 : Int)].length) :=
  ⟨(claim6_feature_name [0] "not_a_feature" false).1 (by decide),
   (claim6_feature_name [0] "voice" false).2 (by decide)⟩

/-- Claim C7: the tokenizer never fails — empty input gives the empty
list, a codepoint starting no table match contributes exactly one `-1`
sentinel while processing continues, and `ipa_to_features "0" = [-1]`. -/
theorem claim7_never_fails :
    ipa_to_features "" = [] ∧
    (∀ (c : Char) (rest : List Char), lookupSeg ((c :: rest).take 3) = none →
      lookupSeg ((c :: rest).take 2) = none → lookupSeg [c] = none →
      ipaLoop (c :: rest) = ([c], -1) :: ipaLoop rest) ∧
    ipa_to_features "0" = [-1] :=
  ⟨by decide, ipaLoop_step0, by decide⟩

/-- Claim C7 witness: the unrecognized codepoint "0" contributes one
sentinel token. -/
theorem claim7_never_fails_w : ipaLoop ['0'] = (['0'], -1) :: ipaLoop [] :=
  claim7_never_fails.2.1 '0' [] (by decide) (by decide) (by decide)

/-- Claim C8: for every known feature name, in both decoding modes,
`has_feature` succeeds and maps every negative (sentinel) entry of the
vector list to the undefined marker `none` (the modelled NaN) instead
of failing or substituting 0. -/
theorem claim8_sentinel_nan : ∀ f ∈ featureNames, ∀ (b : Bool) (v : List Int),
    ∃ res, has_feature v f b = some res ∧ res.length = v.length ∧
      ∀ (i : Nat) (h1 : i < v.length) (h2 : i < res.length),
        v.get ⟨i, h1⟩ < 0 → res.get ⟨i, h2⟩ = none := by
  intro f hf b v
  have hne : lookupMask f ≠ none := fun h => (lookupMask_none_iff f).mp h hf
  obtain ⟨m, hm⟩ := Option.ne_none_iff_exists.mp hne
  refine ⟨v.map (decodeOne m b), by simp [has_feature, hm.symm], by simp, ?_⟩
  intro i h1 h2 hneg
  rw [List.get_map]
  simp only [decodeOne]
  rw [if_pos hneg]

/-- Claim C8 witness: decoding the sentinel list [-1] for "voice" in
binary mode yields the undefined marker. -/
theorem claim8_sentinel_nan_w :
    ∃ res, has_feature [(-1 : Int)] "voice" true = some res ∧
      res.length = [(-1 : Int)].length ∧
      ∀ (i : Nat) (h1 : i < [(-1 : Int)].length) (h2 : i < res.length),
        [(-1 : Int)].get ⟨i, h1⟩ < 0 → res.get ⟨i, h2⟩ = none :=
  claim8_sentinel_nan "voice" (by decide) true [-1]

/-- Claim C9: every stored vector is nonnegative and below `2^46`, so
the `-1` sentinel is out of band, and the decoder's negativity test
flags exactly the sentinel entries. -/
theorem claim9_sentinel_out_of_band :
    (∀ kv ∈ PHONETIC_FEATURES, 0 ≤ kv.2 ∧ kv.2 < 2 ^ 46) ∧
    (∀ (m : Nat) (b : Bool) (ch : Int), decodeOne m b ch = none ↔ ch < 0) := by
  refine ⟨by decide, ?_⟩
  intro m b ch
  constructor
  · intro h
    by_contra hneg
    apply absurd h
    simp only [decodeOne, if_neg hneg]
    split
    · simp
    · split
      · simp
      · split <;> simp
  · intro h
    simp [decodeOne, h]

/-- Claim C9 witness: the vector of "t" is in band, and the decoder
flags the sentinel. -/
theorem claim9_sentinel_out_of_band_w :
    (0 ≤ (0b0110101000010110100000000010001010101010101010 : Int) ∧
      (0b0110101000010110100000000010001010101010101010 : Int) < 2 ^ 46) ∧
    (decodeOne 3 false (-1) = none ↔ (-1 : Int) < 0) :=
  ⟨claim9_sentinel_out_of_band.1
      ("t", 0b0110101000010110100000000010001010101010101010) (by decide),
   claim9_sentinel_out_of_band.2 3 false (-1)⟩

/-- Claim C10: `ipa_to_features` is not injective on single segments —
the distinct keys "ħ"/"ʕ", "f"/"ɸ" and "r"/"ɹ" store identical vectors,
so distinct inputs map to equal outputs. -/
theorem claim10_not_injective :
    ("ħ", (0b0110101000100000100000000001101010100110101010 : Int)) ∈ PHONETIC_FEATURES ∧
    ("ʕ", (0b0110101000100000100000000001101010100110101010 : Int)) ∈ PHONETIC_FEATURES ∧
    ("ħ" : String) ≠ "ʕ" ∧ ipa_to_features "ħ" = ipa_to_features "ʕ" ∧
    ("f" : String) ≠ "ɸ" ∧ ipa_to_features "f" = ipa_to_features "ɸ" ∧
    ("r" : String) ≠ "ɹ" ∧ ipa_to_features "r" = ipa_to_features "ɹ" := by decide
